import Mathlib

/-!
Verification of the core logic of the Bp-Readings dashboard (`src/app.py`):
the date-range filter over the readings dataframe and the out-of-range
("emergency") annotation used for chart markers and table highlighting.

Modelling conventions:
* A `Reading` is one row of the dataframe: a timestamp (milliseconds since
  the epoch, already normalized to the app's single timezone, matching the
  nanosecond-precision pandas timestamps at millisecond granularity) and a
  map from column name to an optional numeric value (`none` models a
  missing value / NaN).
* Dates (the values of the `Date` column and of the sidebar date picker)
  are day numbers: the calendar date of a timestamp is its floor-division
  by `86400000` ms.
* Numeric metric values are rationals; only order comparisons are used.
* Pandas comparison semantics: `NaN < x` and `NaN > x` are `False`, and
  `pd.notnull(NaN)` is `False`.
* The chart path `low, high = emergency_ranges[metric]` raises `KeyError`
  when the metric is unconfigured; this is modelled with `Except`.
-/

/-- One row of the dataframe: timestamp plus named metric columns.
A metric value of `none` models a missing cell (NaN). -/
structure Reading where
  timestamp : ℤ
  metrics : List (String × Option ℚ)
deriving DecidableEq, Repr

/-- `row[col]` for a metric column: the stored value, `none` when the
column holds NaN for this row (or is not stored at all). -/
def getVal (r : Reading) (m : String) : Option ℚ :=
  match r.metrics.find? (fun p => p.1 = m) with
  | some p => p.2
  | none => none

/-- Lookup in the `emergency_ranges` dict: `some (low, high)` when the
metric is configured, `none` otherwise. -/
def lookupRange (ranges : List (String × ℚ × ℚ)) (m : String) : Option (ℚ × ℚ) :=
  match ranges.find? (fun p => p.1 = m) with
  | some p => some p.2
  | none => none

/-- The app's `emergency_ranges` table (src/app.py lines 49-53). -/
def emergencyRanges : List (String × ℚ × ℚ) :=
  [("Systolic (mmHg)", (90, 129)),
   ("Diastolic (mmHg)", (60, 80)),
   ("Pulse (bpm)", (60, 100))]

/-- The app's `variables` list (the name `variables` is reserved in Lean):
the metric columns offered in the multiselect (src/app.py line 47). -/
def variablesList : List String :=
  ["Systolic (mmHg)", "Diastolic (mmHg)", "Pulse (bpm)"]

/-- Milliseconds in one day. -/
def msPerDay : ℤ := 86400000

/-- `df['Timestamp'].dt.date`: the calendar date (day number) of a
timestamp, i.e. floor division of the instant by one day. -/
def dateOf (ts : ℤ) : ℤ := ts / msPerDay

/-- `pd.to_datetime(start_date)`: midnight opening the start date
(src/app.py line 89). -/
def startDatetime (s : ℤ) : ℤ := s * msPerDay

/-- `pd.to_datetime(end_date) + pd.Timedelta(days=1) - pd.Timedelta(seconds=1)`:
one second before midnight after the end date (src/app.py line 90). -/
def endDatetime (e : ℤ) : ℤ := (e + 1) * msPerDay - 1000

/-- The boolean mask of line 91:
`(df['Timestamp'] >= start_datetime) & (df['Timestamp'] <= end_datetime)`. -/
def inRange (s e ts : ℤ) : Bool :=
  decide (startDatetime s ≤ ts ∧ ts ≤ endDatetime e)

/-- `filtered_df = df.loc[mask]` (src/app.py lines 91-92): keep, in order,
the rows whose timestamp satisfies the mask. -/
def filteredDf (D : List Reading) (s e : ℤ) : List Reading :=
  D.filter (fun r => inRange s e r.timestamp)

/-- The whole filter step (src/app.py lines 87-94): when the date-range
selection has exactly two endpoints, filter by them; otherwise fall back
to the full dataframe (`df.copy()`). -/
def filteredStep (D : List Reading) (dateRange : List ℤ) : List Reading :=
  match dateRange with
  | [s, e] => filteredDf D s e
  | _ => D

/-- Elementwise value of the mask of line 119:
`(filtered_df[metric] < low) | (filtered_df[metric] > high)`, with the
pandas rule that comparisons against NaN are `False`. -/
def emergencyFlag (lo hi : ℚ) (v : Option ℚ) : Bool :=
  match v with
  | none => false
  | some x => decide (x < lo ∨ x > hi)

/-- The full boolean series `emergency_mask` of line 119, over the metric
column of the filtered dataframe. -/
def emergencyMask (lo hi : ℚ) (col : List (Option ℚ)) : List Bool :=
  col.map (emergencyFlag lo hi)

/-- The metric column `filtered_df[metric]` as a list of optional values. -/
def column (m : String) (D : List Reading) : List (Option ℚ) :=
  D.map (fun r => getVal r m)

/-- Boolean-mask row selection, `df[mask]`: keep the rows whose mask
entry is `true`, in order. -/
def maskSelect {α : Type} : List α → List Bool → List α
  | [], _ => []
  | _, [] => []
  | a :: as, b :: bs => if b then a :: maskSelect as bs else maskSelect as bs

/-- The chart path for one metric (src/app.py lines 118-120):
`low, high = emergency_ranges[metric]` raises `KeyError` (modelled as
`Except.error`) when the metric is unconfigured; otherwise
`emergencies = filtered_df[emergency_mask]`. -/
def chartEmergencies (m : String) (ranges : List (String × ℚ × ℚ))
    (D : List Reading) : Except String (List Reading) :=
  match lookupRange ranges m with
  | none => Except.error m
  | some (lo, hi) => Except.ok (maskSelect D (emergencyMask lo hi (column m D)))

/-- The style of the highlighted cell. -/
def redStyle : String := "background-color: #FFCCCC"

/-- The per-cell body of `highlight_emergencies` (src/app.py lines 148-156):
a configured column whose value is non-null and strictly outside its range
gets the red style, every other cell the empty style. -/
def highlightCell (ranges : List (String × ℚ × ℚ)) (row : String → Option ℚ)
    (col : String) : String :=
  match lookupRange ranges col with
  | some (lo, hi) =>
    match row col with
    | some v => if v < lo ∨ v > hi then redStyle else ""
    | none => ""
  | none => ""

/-- `highlight_emergencies(row)` (src/app.py lines 145-157): one style per
column of `cols_to_show`, in order. -/
def highlightEmergencies (colsToShow : List String)
    (ranges : List (String × ℚ × ℚ)) (row : String → Option ℚ) : List String :=
  colsToShow.map (highlightCell ranges row)

/-- `cols_to_show = ["Timestamp"] + [m for m in selected_metrics if m in
filtered_df.columns]` (src/app.py line 143). -/
def colsToShow (selected : List String) (dfCols : List String) : List String :=
  "Timestamp" :: selected.filter (fun m => dfCols.contains m)

/-- Modelled from the spec's words for the refinement claim about the
filter window: inclusion in the instant range
`[start 00:00:00, end 23:59:59.999]` at millisecond precision. -/
def specIncluded (s e ts : ℤ) : Prop :=
  s * msPerDay ≤ ts ∧ ts ≤ (e + 1) * msPerDay - 1

/-- A decidability instance so the spec-side inclusion predicate can be
evaluated on concrete inputs. -/
instance (s e ts : ℤ) : Decidable (specIncluded s e ts) :=
  inferInstanceAs (Decidable (_ ∧ _))

/-- A reading used in the boundary counterexamples: its timestamp is the
last millisecond of day 0 (23:59:59.999). -/
def lateReading : Reading := ⟨86399999, []⟩

/-- Concrete whole-second readings on day 0 and day 1. -/
def wReading1 : Reading := ⟨0, []⟩

/-- Second concrete whole-second reading, at day 1, 01:00:00. -/
def wReading2 : Reading := ⟨90000000, []⟩

/-- A concrete row whose Systolic value is 150 and whose other columns
are missing. -/
def exRowC1 : String → Option ℚ :=
  fun c => if c = "Systolic (mmHg)" then some 150 else none

/-- A concrete reading whose Pulse value is missing. -/
def rC5 : Reading := ⟨0, [("Pulse (bpm)", none)]⟩

/-- A concrete one-row dataset with a Systolic value. -/
def exDataset : List Reading := [⟨0, [("Systolic (mmHg)", some 150)]⟩]

/-- Selecting rows of `l` by the mask obtained by mapping `f` over `l`
is filtering `l` by `f`. -/
theorem maskSelect_map (f : α → Bool) (l : List α) :
    maskSelect l (l.map f) = l.filter f := by
  induction l with
  | nil => rfl
  | cons a t ih =>
    simp only [List.map_cons, maskSelect, List.filter_cons]
    cases h : f a <;> simp [h, ih]

/-- On a configured metric, the chart path succeeds and selects exactly
the readings whose per-reading emergency flag is set. -/
theorem chartEmergencies_eq_filter (ranges : List (String × ℚ × ℚ))
    (m : String) (lo hi : ℚ) (hlk : lookupRange ranges m = some (lo, hi))
    (D : List Reading) :
    chartEmergencies m ranges D
      = Except.ok (D.filter (fun r => emergencyFlag lo hi (getVal r m))) := by
  simp only [chartEmergencies, hlk, emergencyMask, column, List.map_map]
  rw [maskSelect_map]
  rfl

/-- C1: for a reading whose value on a configured metric is present, the
chart mask flags the metric, and the table cell is highlighted red, if
and only if the value is strictly below the low bound or strictly above
the high bound; boundary values are not flagged. -/
theorem flag_iff_strictly_out_of_range (ranges : List (String × ℚ × ℚ))
    (m : String) (lo hi : ℚ) (hlk : lookupRange ranges m = some (lo, hi))
    (row : String → Option ℚ) (v : ℚ) (hv : row m = some v) :
    (emergencyFlag lo hi (row m) = true ↔ (v < lo ∨ v > hi))
    ∧ (highlightCell ranges row m = redStyle ↔ (v < lo ∨ v > hi)) := by
  constructor
  · rw [hv]
    simp [emergencyFlag]
  · simp only [highlightCell, hlk, hv]
    by_cases h : v < lo ∨ v > hi
    · simp [h]
    · simp [h, redStyle]

/-- Witness for C1: a Systolic value of 150 against the app's range
(90, 129) is flagged and highlighted, being strictly above 129. -/
theorem flag_iff_strictly_out_of_range_witness :
    (emergencyFlag 90 129 (exRowC1 "Systolic (mmHg)") = true
      ↔ ((150 : ℚ) < 90 ∨ (150 : ℚ) > 129))
    ∧ (highlightCell emergencyRanges exRowC1 "Systolic (mmHg)" = redStyle
      ↔ ((150 : ℚ) < 90 ∨ (150 : ℚ) > 129)) :=
  flag_iff_strictly_out_of_range emergencyRanges "Systolic (mmHg)" 90 129
    (by decide) exRowC1 150 (by decide)

/-- C2 (counterexample): a reading in the last millisecond of the end
day is inside the spec's claimed window `[start 00:00:00, end
23:59:59.999]` but is dropped by the filter, whose upper bound is
`end + 1 day - 1 second`, i.e. `end 23:59:59.000`. -/
theorem filter_window_spec_counterexample :
    ¬ (lateReading ∈ filteredDf [lateReading] 0 0 ↔
        specIncluded 0 0 lateReading.timestamp) := by
  decide

/-- C2 (amended): a reading is kept by the filter exactly when its
timestamp lies in the inclusive instant window from start 00:00:00 to
end 23:59:59.000 (i.e. end of day minus one second), in the
normalization timezone. -/
theorem mem_filteredDf_iff (D : List Reading) (s e : ℤ) (r : Reading) :
    r ∈ filteredDf D s e ↔
      r ∈ D ∧ 86400000 * s ≤ r.timestamp ∧
        r.timestamp ≤ 86400000 * e + 86399000 := by
  simp only [filteredDf, List.mem_filter, inRange, startDatetime, endDatetime,
    msPerDay, decide_eq_true_eq]
  constructor <;> rintro ⟨h1, h2, h3⟩ <;> exact ⟨h1, by omega, by omega⟩

/-- C3: for every dataset and every inverted date pair (start after end),
the filter returns the empty dataset; it never fails on such input. -/
theorem filteredDf_inverted_range_empty (D : List Reading) (s e : ℤ)
    (h : e < s) : filteredDf D s e = [] := by
  apply List.filter_eq_nil_iff.mpr
  intro r _
  simp only [inRange, startDatetime, endDatetime, msPerDay, decide_eq_true_eq,
    not_and, not_le]
  intro h1
  omega

/-- Witness for C3 at a concrete inverted range. -/
theorem filteredDf_inverted_range_empty_witness :
    filteredDf [lateReading] 5 3 = [] :=
  filteredDf_inverted_range_empty [lateReading] 5 3 (by decide)

/-- C4 (counterexample): on a metric absent from `emergency_ranges`, the
chart path raises a `KeyError` at `emergency_ranges[metric]` instead of
silently skipping the metric, so annotation is not error-free there. -/
theorem chartEmergencies_unconfigured_error :
    chartEmergencies "Weight (kg)" emergencyRanges exDataset
      = Except.error "Weight (kg)" := rfl

/-- C4 (amended): a metric absent from the safe-range table is never
highlighted by the table annotator and causes no error there; listing it
among the shown columns leaves the other columns' styles unchanged; the
chart-path mask instead raises a `KeyError` for such a metric, but every
metric selectable in the app (`variables`) is configured, so that path
never errors in the app. -/
theorem unconfigured_metric_never_highlighted (ranges : List (String × ℚ × ℚ))
    (m : String) (h : lookupRange ranges m = none) :
    (∀ row : String → Option ℚ, highlightCell ranges row m = "")
    ∧ (∀ cols row, highlightEmergencies (m :: cols) ranges row
        = "" :: highlightEmergencies cols ranges row)
    ∧ (∀ D : List Reading, chartEmergencies m ranges D = Except.error m)
    ∧ (∀ v ∈ variablesList,
        (lookupRange emergencyRanges v).isSome = true) := by
  refine ⟨fun row => ?_, fun cols row => ?_, fun D => ?_, ?_⟩
  · simp [highlightCell, h]
  · simp [highlightEmergencies, highlightCell, h]
  · simp [chartEmergencies, h]
  · decide

/-- Witness for the amended C4 on the unconfigured metric "Weight (kg)". -/
theorem unconfigured_metric_never_highlighted_witness :
    highlightCell emergencyRanges (getVal rC5) "Weight (kg)" = ""
    ∧ chartEmergencies "Weight (kg)" emergencyRanges exDataset
        = Except.error "Weight (kg)" :=
  ⟨(unconfigured_metric_never_highlighted emergencyRanges "Weight (kg)"
      (by decide)).1 (getVal rC5),
   (unconfigured_metric_never_highlighted emergencyRanges "Weight (kg)"
      (by decide)).2.2.1 exDataset⟩

/-- C5: a reading whose value for a configured metric is missing is
never selected among the chart emergencies, its table cell gets the
empty style, and its mask entry is false — no error in either path. -/
theorem missing_value_not_flagged (ranges : List (String × ℚ × ℚ))
    (m : String) (lo hi : ℚ) (hlk : lookupRange ranges m = some (lo, hi))
    (r : Reading) (hmiss : getVal r m = none)
    (D es : List Reading)
    (hes : chartEmergencies m ranges D = Except.ok es) :
    r ∉ es ∧ highlightCell ranges (getVal r) m = ""
      ∧ emergencyFlag lo hi (getVal r m) = false := by
  rw [chartEmergencies_eq_filter ranges m lo hi hlk D] at hes
  injection hes with hes
  subst hes
  refine ⟨?_, ?_, ?_⟩
  · intro hmem
    have := (List.mem_filter.mp hmem).2
    rw [hmiss] at this
    simp [emergencyFlag] at this
  · simp only [highlightCell, hlk, hmiss]
  · simp [hmiss, emergencyFlag]

/-- Witness for C5: a reading with a missing Pulse value is skipped by
both annotation paths. -/
theorem missing_value_not_flagged_witness :
    rC5 ∉ ([] : List Reading)
    ∧ highlightCell emergencyRanges (getVal rC5) "Pulse (bpm)" = ""
    ∧ emergencyFlag 60 100 (getVal rC5 "Pulse (bpm)") = false :=
  missing_value_not_flagged emergencyRanges "Pulse (bpm)" 60 100 (by decide)
    rC5 (by decide) [rC5] [] rfl

/-- C6 (counterexample): a one-reading dataset whose only timestamp is in
the last millisecond of its day: filtering by the date of the minimum and
maximum timestamp drops the reading, returning an empty dataset instead
of all of the input. -/
theorem filteredDf_minmax_counterexample :
    dateOf lateReading.timestamp = 0 ∧
    filteredDf [lateReading] (dateOf lateReading.timestamp)
      (dateOf lateReading.timestamp) = [] ∧
    [lateReading] ≠ [] := by
  decide

/-- C6 (amended): when every timestamp is a whole second (no sub-second
component), filtering with the dates of the minimum and maximum
timestamps returns the whole dataset, in original order. -/
theorem filteredDf_minmax_all (D : List Reading) (mn mx : ℤ)
    (hsec : ∀ r ∈ D, (1000 : ℤ) ∣ r.timestamp)
    (hmn_mem : mn ∈ D.map Reading.timestamp)
    (hmn : ∀ r ∈ D, mn ≤ r.timestamp)
    (hmx_mem : mx ∈ D.map Reading.timestamp)
    (hmx : ∀ r ∈ D, r.timestamp ≤ mx) :
    filteredDf D (dateOf mn) (dateOf mx) = D := by
  apply List.filter_eq_self.mpr
  intro r hr
  obtain ⟨rx, hrx, hrxts⟩ := List.mem_map.mp hmx_mem
  have h1000 : (1000 : ℤ) ∣ mx := hrxts ▸ hsec rx hrx
  have h1 := hmn r hr
  have h2 := hmx r hr
  simp only [inRange, startDatetime, endDatetime, dateOf, msPerDay,
    decide_eq_true_eq]
  omega

/-- Witness for the amended C6 on a two-reading whole-second dataset. -/
theorem filteredDf_minmax_all_witness :
    filteredDf [wReading1, wReading2] (dateOf 0) (dateOf 90000000)
      = [wReading1, wReading2] :=
  filteredDf_minmax_all [wReading1, wReading2] 0 90000000
    (by decide) (by decide) (by decide) (by decide) (by decide)

/-- C7: for every dataset and every date range, the output of the range
filter is a subsequence of the input in the input's original order: no
reordering and no deduplication of readings. -/
theorem filteredDf_sublist (D : List Reading) (s e : ℤ) :
    (filteredDf D s e).Sublist D :=
  List.filter_sublist D

/-- C8: the range filter is idempotent: filtering an already filtered
dataset by the same dates changes nothing. -/
theorem filteredDf_idempotent (D : List Reading) (s e : ℤ) :
    filteredDf (filteredDf D s e) s e = filteredDf D s e := by
  simp only [filteredDf]
  rw [List.filter_filter]
  simp

/-- C9: when the date-range selection does not have exactly two
endpoints, the filter step falls back to the whole dataset. -/
theorem filteredStep_fallback_full (D : List Reading) (dr : List ℤ)
    (h : dr.length ≠ 2) : filteredStep D dr = D := by
  match dr with
  | [] => rfl
  | [_] => rfl
  | [_, _] => exact absurd rfl h
  | _ :: _ :: _ :: _ => rfl

/-- Witness for C9 at a one-endpoint selection. -/
theorem filteredStep_fallback_full_witness :
    filteredStep [lateReading] [3] = [lateReading] :=
  filteredStep_fallback_full [lateReading] [3] (by decide)

/-- C10: for every displayed row, `highlight_emergencies` returns exactly
one style per column of `cols_to_show`, in column order, and every column
without a configured safe range receives the empty style. -/
theorem highlight_one_style_per_column (sel dfc : List String)
    (ranges : List (String × ℚ × ℚ)) (row : String → Option ℚ) :
    (highlightEmergencies (colsToShow sel dfc) ranges row).length
        = (colsToShow sel dfc).length
    ∧ (∀ i : Fin (colsToShow sel dfc).length,
        (highlightEmergencies (colsToShow sel dfc) ranges row)[(i : ℕ)]?
          = some (highlightCell ranges row ((colsToShow sel dfc).get i)))
    ∧ (∀ i : Fin (colsToShow sel dfc).length,
        lookupRange ranges ((colsToShow sel dfc).get i) = none →
        (highlightEmergencies (colsToShow sel dfc) ranges row)[(i : ℕ)]?
          = some "") := by
  refine ⟨by simp [highlightEmergencies], fun i => ?_, fun i hn => ?_⟩
  · simp [highlightEmergencies, List.getElem?_map, List.getElem?_eq_getElem i.isLt,
      List.get_eq_getElem]
  · simp [highlightEmergencies, List.getElem?_map, List.getElem?_eq_getElem i.isLt,
      List.get_eq_getElem, highlightCell] at hn ⊢
    simp [hn]

/-- Witness for C10 on the app's columns: one style per shown column, and
the unconfigured "Timestamp" column gets the empty style. -/
theorem highlight_one_style_per_column_witness :
    (highlightEmergencies (colsToShow variablesList
        ["Timestamp", "Systolic (mmHg)", "Diastolic (mmHg)", "Pulse (bpm)", "Date"])
        emergencyRanges (getVal rC5)).length
      = (colsToShow variablesList
        ["Timestamp", "Systolic (mmHg)", "Diastolic (mmHg)", "Pulse (bpm)", "Date"]).length
    ∧ (highlightEmergencies (colsToShow variablesList
        ["Timestamp", "Systolic (mmHg)", "Diastolic (mmHg)", "Pulse (bpm)", "Date"])
        emergencyRanges (getVal rC5))[(0 : ℕ)]? = some "" := by
  refine ⟨(highlight_one_style_per_column variablesList _ emergencyRanges
    (getVal rC5)).1, ?_⟩
  exact (highlight_one_style_per_column variablesList
    ["Timestamp", "Systolic (mmHg)", "Diastolic (mmHg)", "Pulse (bpm)", "Date"]
    emergencyRanges (getVal rC5)).2.2 ⟨0, by decide⟩ (by decide)
